import Mathlib

set_option maxRecDepth 1000000

/-!
Verification development for the signet identification engine.

The Go sources are embedded shallowly: strings are Lean `String`s, Go `int`
is `Int`, Go `float64` is `ℚ` (exact arithmetic; every constant appearing in
the code is a dyadic rational, and no claim depends on float rounding),
fallible operations return `Option`.  Go maps are association lists read
through a first-match lookup; map iteration is summation over the `Finset`
of keys (iteration order is irrelevant because the accumulations commute).
-/

namespace Signet

/-! ## Byte-level string model

Go hashes and measures strings as UTF-8 byte sequences.  `utf8Bytes`
produces the UTF-8 encoding of a Lean string as a list of byte values. -/

def charUtf8 (c : Char) : List Nat :=
  let n := c.toNat
  if n < 0x80 then [n]
  else if n < 0x800 then
    [0xC0 + n / 0x40, 0x80 + n % 0x40]
  else if n < 0x10000 then
    [0xE0 + n / 0x1000, 0x80 + n / 0x40 % 0x40, 0x80 + n % 0x40]
  else
    [0xF0 + n / 0x40000, 0x80 + n / 0x1000 % 0x40, 0x80 + n / 0x40 % 0x40, 0x80 + n % 0x40]

def utf8Bytes (s : String) : List Nat :=
  s.data.flatMap charUtf8

/-- Go `len(s)` on a string counts UTF-8 bytes. -/
def goStrLen (s : String) : Nat :=
  (utf8Bytes s).length

/-! ## SHA-256 (crypto/sha256)

A direct functional transcription of FIPS 180-4 over `Nat` with explicit
reduction modulo `2^32`.  It is used symbolically by the theorems below:
no claim requires evaluating a digest, only congruence of equal inputs. -/

def w32 (n : Nat) : Nat := n % 4294967296

def rotr32 (n x : Nat) : Nat := w32 (x >>> n ||| x <<< (32 - n))

/-- The 64 SHA-256 round constants of FIPS 180-4, written in decimal. -/
def sha256K : List Nat :=
  [1116352408, 1899447441, 3049323471, 3921009573, 961987163, 1508970993,
   2453635748, 2870763221, 3624381080, 310598401, 607225278, 1426881987,
   1925078388, 2162078206, 2614888103, 3248222580, 3835390401, 4022224774,
   264347078, 604807628, 770255983, 1249150122, 1555081692, 1996064986,
   2554220882, 2821834349, 2952996808, 3210313671, 3336571891, 3584528711,
   113926993, 338241895, 666307205, 773529912, 1294757372, 1396182291,
   1695183700, 1986661051, 2177026350, 2456956037, 2730485921, 2820302411,
   3259730800, 3345764771, 3516065817, 3600352804, 4094571909, 275423344,
   430227734, 506948616, 659060556, 883997877, 958139571, 1322822218,
   1537002063, 1747873779, 1955562222, 2024104815, 2227730452, 2361852424,
   2428436474, 2756734187, 3204031479, 3329325298]

/-- The eight SHA-256 initial hash values, in decimal. -/
def sha256H0 : List Nat :=
  [1779033703, 3144134277, 1013904242, 2773480762, 1359893119,
   2600822924, 528734635, 1541459225]

/-- Split a padded byte list into 32-bit big-endian words. -/
def bytesToWords : List Nat → List Nat
  | b0 :: b1 :: b2 :: b3 :: rest =>
      (b0 * 0x1000000 + b1 * 0x10000 + b2 * 0x100 + b3) :: bytesToWords rest
  | _ => []

/-- Big-endian bytes of a 32-bit word. -/
def wordToBytes (x : Nat) : List Nat :=
  [x / 0x1000000 % 0x100, x / 0x10000 % 0x100, x / 0x100 % 0x100, x % 0x100]

/-- Big-endian bytes of the 64-bit bit-length field of the padding. -/
def lenToBytes (x : Nat) : List Nat :=
  [x / 0x100000000000000 % 0x100, x / 0x1000000000000 % 0x100,
   x / 0x10000000000 % 0x100, x / 0x100000000 % 0x100,
   x / 0x1000000 % 0x100, x / 0x10000 % 0x100, x / 0x100 % 0x100, x % 0x100]

/-- SHA-256 padding: append 0x80, zero bytes to 56 mod 64, then the
64-bit big-endian message bit length. -/
def sha256Pad (msg : List Nat) : List Nat :=
  let l := msg.length
  let zeros := (55 + 64 - l % 64) % 64
  msg ++ [0x80] ++ List.replicate zeros 0 ++ lenToBytes (8 * l)

def smallSigma0 (x : Nat) : Nat := rotr32 7 x ^^^ rotr32 18 x ^^^ x >>> 3
def smallSigma1 (x : Nat) : Nat := rotr32 17 x ^^^ rotr32 19 x ^^^ x >>> 10
def bigSigma0 (x : Nat) : Nat := rotr32 2 x ^^^ rotr32 13 x ^^^ rotr32 22 x
def bigSigma1 (x : Nat) : Nat := rotr32 6 x ^^^ rotr32 11 x ^^^ rotr32 25 x

/-- Extend the 16 block words to the 64-word message schedule. -/
def sha256Schedule (ws : List Nat) (rounds : Nat) : List Nat :=
  match rounds with
  | 0 => ws
  | r + 1 =>
      let i := ws.length
      let nw := w32 (smallSigma1 (ws.getD (i - 2) 0) + ws.getD (i - 7) 0 +
                     smallSigma0 (ws.getD (i - 15) 0) + ws.getD (i - 16) 0)
      sha256Schedule (ws ++ [nw]) r

structure Sha256Regs where
  a : Nat
  b : Nat
  c : Nat
  d : Nat
  e : Nat
  f : Nat
  g : Nat
  h : Nat

def sha256Round (r : Sha256Regs) (kw : Nat × Nat) : Sha256Regs :=
  let t1 := w32 (r.h + bigSigma1 r.e + ((r.e &&& r.f) ^^^ ((0xffffffff - r.e) &&& r.g)) +
                 kw.1 + kw.2)
  let t2 := w32 (bigSigma0 r.a + ((r.a &&& r.b) ^^^ (r.a &&& r.c) ^^^ (r.b &&& r.c)))
  ⟨w32 (t1 + t2), r.a, r.b, r.c, w32 (r.d + t1), r.e, r.f, r.g⟩

def sha256Block (hs : List Nat) (block : List Nat) : List Nat :=
  let ws := sha256Schedule (bytesToWords block) 48
  let init : Sha256Regs :=
    ⟨hs.getD 0 0, hs.getD 1 0, hs.getD 2 0, hs.getD 3 0,
     hs.getD 4 0, hs.getD 5 0, hs.getD 6 0, hs.getD 7 0⟩
  let r := (sha256K.zip ws).foldl sha256Round init
  [w32 (hs.getD 0 0 + r.a), w32 (hs.getD 1 0 + r.b), w32 (hs.getD 2 0 + r.c),
   w32 (hs.getD 3 0 + r.d), w32 (hs.getD 4 0 + r.e), w32 (hs.getD 5 0 + r.f),
   w32 (hs.getD 6 0 + r.g), w32 (hs.getD 7 0 + r.h)]

def sha256BlocksGo : Nat → List Nat → List Nat → List Nat
  | 0, hs, _ => hs
  | fuel + 1, hs, bytes =>
      if bytes.length < 64 then hs
      else sha256BlocksGo fuel (sha256Block hs (bytes.take 64)) (bytes.drop 64)

def sha256Blocks (hs : List Nat) (bytes : List Nat) : List Nat :=
  sha256BlocksGo bytes.length hs bytes

/-- SHA-256 digest of a byte list, as 32 bytes. -/
def sha256Bytes (msg : List Nat) : List Nat :=
  (sha256Blocks sha256H0 (sha256Pad msg)).flatMap wordToBytes

/-! ## Hex encoding (encoding/hex) -/

def hexDigit (n : Nat) : Char :=
  if n < 10 then Char.ofNat (48 + n) else Char.ofNat (87 + n)

def hexByte (b : Nat) : List Char :=
  [hexDigit (b / 16), hexDigit (b % 16)]

def hexEncode (bytes : List Nat) : String :=
  ⟨bytes.flatMap hexByte⟩

/-- SHA-256 of a string's UTF-8 bytes, hex-encoded (the `sha256.Sum256` +
`hex.EncodeToString` combination used throughout the source). -/
def sha256Hex (s : String) : String :=
  hexEncode (sha256Bytes (utf8Bytes s))

/-! ## Small string helpers (strings package) -/

def charToLower (c : Char) : Char :=
  if 'A' ≤ c ∧ c ≤ 'Z' then Char.ofNat (c.toNat + 32) else c

/-- `strings.ToLower`, restricted to its ASCII action (the browser tokens the
code searches for are ASCII). -/
def asciiToLower (s : String) : String :=
  String.mk (s.data.map charToLower)

/-- The ASCII whitespace bytes `strings.TrimSpace` removes: space, tab,
newline, carriage return, vertical tab, form feed. -/
def isGoSpace (c : Char) : Bool :=
  [32, 9, 10, 13, 11, 12].contains c.toNat

/-- `strings.TrimSpace` (ASCII whitespace). -/
def trimSpace (s : String) : String :=
  String.mk (((s.data.dropWhile isGoSpace).reverse.dropWhile isGoSpace).reverse)

/-- `strings.Split` with a one-character separator (the only form the source
uses): split around every occurrence, yielding at least one piece. -/
def splitOnChar (sep : Char) : List Char → List (List Char)
  | [] => [[]]
  | c :: rest =>
      let r := splitOnChar sep rest
      if c == sep then [] :: r
      else
        match r with
        | h :: t => (c :: h) :: t
        | [] => [[c]]

/-- `strings.Index` as an `Option` over character positions (`none` stands
for Go's `-1`; a byte-level match of an ASCII needle always falls on a rune
boundary, so character positions agree with Go's byte positions for the
suffix the code then takes). -/
def strIndexAux (pat : List Char) : List Char → Option Nat
  | [] => if pat.isEmpty then some 0 else none
  | c :: rest =>
      if pat.isPrefixOf (c :: rest) then some 0
      else (strIndexAux pat rest).map (· + 1)

def strIndex (s pat : String) : Option Nat :=
  strIndexAux pat.data s.data

/-- Stable insertion sort, standing in for `sort.Strings` / SQL `ORDER BY`
(both totally ordered here, so any correct sort agrees). -/
def insertBy {α : Type} (le : α → α → Bool) (x : α) : List α → List α
  | [] => [x]
  | y :: ys => if le x y then x :: y :: ys else y :: insertBy le x ys

def sortBy {α : Type} (le : α → α → Bool) : List α → List α
  | [] => []
  | x :: xs => insertBy le x (sortBy le xs)

def sortStrings (l : List String) : List String :=
  sortBy (fun a b => decide (a ≤ b)) l

/-! ## Number formatting (fmt) -/

/-- Round to the nearest integer, ties to even: the rounding `fmt`'s `%.0f`
and `%.2f` apply to `float64`. -/
def goRoundEven (q : ℚ) : ℤ :=
  let n := ⌊q⌋
  if q - n < 1/2 then n
  else if 1/2 < q - n then n + 1
  else if n % 2 = 0 then n else n + 1

/-- `fmt.Sprintf("%.0f", x)`.  (Go prints `-0` for negative values rounding
to zero; device memory is non-negative, so that corner is never exercised.) -/
def fmtF0 (q : ℚ) : String :=
  toString (goRoundEven q)

def padLeftZeros (k : Nat) (s : String) : String :=
  String.mk (List.replicate (k - s.length) '0') ++ s

/-- `fmt.Sprintf("%.2f", x)`. -/
def fmtF2 (q : ℚ) : String :=
  let m := goRoundEven (q * 100)
  let sign := if m < 0 then "-" else ""
  let a := m.natAbs
  sign ++ toString (a / 100) ++ "." ++ padLeftZeros 2 (toString (a % 100))

/-! ## Association lists: the model of Go maps and of the Redis keyspace. -/

def assocFind {β : Type} (l : List (String × β)) (k : String) : Option β :=
  (l.find? (fun p => p.1 == k)).map Prod.snd

def assocGetD {β : Type} (l : List (String × β)) (k : String) (d : β) : β :=
  (assocFind l k).getD d

def assocSet {β : Type} : List (String × β) → String → β → List (String × β)
  | [], k, v => [(k, v)]
  | (k', v') :: rest, k, v =>
      if k' == k then (k, v) :: rest else (k', v') :: assocSet rest k v

/-! ## Data model (internal/models)

Field-for-field transcription of `models.Signals`; defaults are the Go zero
values, so a Lean structure literal that sets only some fields means the
same bundle as the corresponding Go composite literal. -/

structure Signals where
  canvas2DHash : String := ""
  canvasWinding : Bool := false
  webGLVendor : String := ""
  webGLRenderer : String := ""
  webGLExtensions : List String := []
  webGLParams : List (String × String) := []
  webGLHash : String := ""
  audioHash : String := ""
  audioContextHash : String := ""
  hardwareConcurrency : Int := 0
  deviceMemory : ℚ := 0
  colorDepth : Int := 0
  pixelRatio : ℚ := 0
  maxTouchPoints : Int := 0
  screenWidth : Int := 0
  screenHeight : Int := 0
  availWidth : Int := 0
  availHeight : Int := 0
  colorGamut : String := ""
  hdrCapable : Bool := false
  timeZone : String := ""
  timezoneOffset : Int := 0
  languages : List String := []
  platform : String := ""
  userAgent : String := ""
  vendor : String := ""
  fonts : List String := []
  webDriver : Bool := false
  chromePresent : Bool := false
  phantomPresent : Bool := false
  headlessChrome : Bool := false
  seleniumPresent : Bool := false
  automationPresent : Bool := false
  plugins : List String := []
  mediaDevices : Int := 0
  batteryPresent : Bool := false
  permissionsHash : String := ""
  doNotTrack : String := ""
deriving DecidableEq

structure Visitor where
  visitorID : String
  createdAt : Nat
  updatedAt : Nat
  trustScore : ℚ
  firstSeenIP : Option String
  lastSeenIP : Option String
  visitCount : Int
deriving DecidableEq

structure Identification where
  requestID : String
  visitorID : String
  ipAddress : String
  userAgent : Option String
  signals : Signals
  confidenceScore : ℚ
  createdAt : Nat
  hardwareHash : String
  isBot : Bool
deriving DecidableEq

structure IdentifyRequest where
  signals : Signals
  ipAddress : String := ""
deriving DecidableEq

structure IdentifyResponse where
  visitorID : String
  confidence : ℚ
  isNew : Bool
  requestID : String
deriving DecidableEq

/-! ## Similarity engine (pkg/similarity) -/

structure Weights where
  hardware : ℚ
  environment : ℚ
  software : ℚ
deriving DecidableEq

def DefaultWeights : Weights := ⟨4/5, 1/2, 1/5⟩

/-- A fingerprint as weighted features.  `features` is the association-list
reading of the Go map (the emitted keys are pairwise distinct, see
`ExtractFeatures`), `hash` the vector digest. -/
structure FeatureVector where
  features : List (String × ℚ)
  hash : String
deriving DecidableEq

structure Calculator where
  weights : Weights
deriving DecidableEq

def NewCalculator (weights : Weights) : Calculator := ⟨weights⟩

/-- `hashStringSlice`: sorted join with `,`, SHA-256, first 8 bytes hex;
the literal `empty` for an empty slice. -/
def hashStringSlice (items : List String) : String :=
  if items.isEmpty then "empty"
  else
    let sorted := sortStrings items
    hexEncode ((sha256Bytes (utf8Bytes (String.intercalate "," sorted))).take 8)

/-- `extractBrowserVersion`'s loop over the browser tokens in their fixed
priority order; `"unknown"` when it falls through. -/
def ebvLoop (ua : List Char) : List String → String
  | [] => "unknown"
  | browser :: rest =>
      match strIndexAux browser.data ua with
      | some idx =>
          match splitOnChar '/' (ua.drop idx) with
          | _ :: versionPart :: _ =>
              let version := (splitOnChar '.' versionPart).headD []
              browser ++ ":" ++ trimSpace (String.mk version)
          | _ => ebvLoop ua rest
      | none => ebvLoop ua rest

def browserTokens : List String := ["chrome", "firefox", "safari", "edge", "opera"]

/-- `extractBrowserVersion`: browser name and major version from the UA. -/
def extractBrowserVersion (ua : String) : String :=
  if ua = "" then ""
  else ebvLoop (asciiToLower ua).data browserTokens

/-- `computeVectorHash`: sorted keys, keep features with weight at least the
environment weight, format `key:%.2f`, join with `|`, SHA-256, first 16
bytes hex. -/
def computeVectorHash (c : Calculator) (features : List (String × ℚ)) : String :=
  let keys := sortBy (fun a b => decide (a ≤ b)) (features.map Prod.fst)
  let parts := (keys.filter (fun k => decide (c.weights.environment ≤ assocGetD features k 0))).map
      (fun k => k ++ ":" ++ fmtF2 (assocGetD features k 0))
  hexEncode ((sha256Bytes (utf8Bytes (String.intercalate "|" parts))).take 16)

/-- `ExtractFeatures`: project a signal bundle into a weighted feature map.
The thirteen key families carry pairwise distinct namespaces (the text
before the first `:` differs), so the Go map writes never collide and the
association list below denotes the same map. -/
def ExtractFeatures (c : Calculator) (signals : Signals) : FeatureVector :=
  let features : List (String × ℚ) :=
    (if signals.canvas2DHash ≠ "" then
      [("canvas:" ++ signals.canvas2DHash, c.weights.hardware)] else []) ++
    (if signals.audioHash ≠ "" then
      [("audio:" ++ signals.audioHash, c.weights.hardware)] else []) ++
    [("webgl:" ++ signals.webGLVendor ++ ":" ++ signals.webGLRenderer, c.weights.hardware)] ++
    [("webgl_ext:" ++ hashStringSlice signals.webGLExtensions, c.weights.hardware * (7/10))] ++
    [("hw_concurrency:" ++ toString signals.hardwareConcurrency, c.weights.hardware * (3/5))] ++
    [("device_memory:" ++ fmtF0 signals.deviceMemory, c.weights.hardware * (3/5))] ++
    [("color_depth:" ++ toString signals.colorDepth, c.weights.hardware * (1/2))] ++
    (if signals.timeZone ≠ "" then
      [("tz:" ++ signals.timeZone, c.weights.environment)] else []) ++
    [("lang:" ++ hashStringSlice signals.languages, c.weights.environment)] ++
    [("fonts:" ++ hashStringSlice signals.fonts, c.weights.environment * (9/10))] ++
    [("screen:" ++ toString signals.screenWidth ++ "x" ++ toString signals.screenHeight,
      c.weights.environment * (7/10))] ++
    (if signals.platform ≠ "" then
      [("platform:" ++ signals.platform, c.weights.software)] else []) ++
    (if extractBrowserVersion signals.userAgent ≠ "" then
      [("browser:" ++ extractBrowserVersion signals.userAgent, c.weights.software)] else [])
  ⟨features, computeVectorHash c features⟩

/-- `ComputeHardwareHash`: SHA-256 hex over the six hardware fields joined
with `|`. -/
def ComputeHardwareHash (signals : Signals) : String :=
  let parts := [signals.canvas2DHash, signals.audioHash,
                signals.webGLVendor, signals.webGLRenderer,
                toString signals.hardwareConcurrency, fmtF0 signals.deviceMemory]
  sha256Hex (String.intercalate "|" parts)

def fvKeys (v : FeatureVector) : Finset String :=
  (v.features.map Prod.fst).toFinset

def fvFind (v : FeatureVector) (k : String) : Option ℚ :=
  assocFind v.features k

/-- Per-key contribution of the Go loop body: `.1` is what is added to
`intersection`, `.2` what is added to `union` (the `switch` on presence). -/
def jContrib (v1 v2 : FeatureVector) (key : String) : ℚ × ℚ :=
  match fvFind v1 key, fvFind v2 key with
  | some w1, some w2 => (min w1 w2, max w1 w2)
  | some w1, none => (0, w1)
  | none, some w2 => (0, w2)
  | none, none => (0, 0)

/-- `JaccardSimilarity` after its empty-map guard: digest fast path, then
the accumulation over the union of the two key sets (Go iterates the
`allKeys` map in arbitrary order; the sums commute, so summing over the
`Finset` of keys is the same total). -/
def jaccardBody (v1 v2 : FeatureVector) : ℚ :=
  if v1.hash == v2.hash then 1
  else
    let allKeys := fvKeys v1 ∪ fvKeys v2
    let intersection := ∑ key ∈ allKeys, (jContrib v1 v2 key).1
    let union := ∑ key ∈ allKeys, (jContrib v1 v2 key).2
    if union = 0 then 0 else intersection / union

/-- `JaccardSimilarity`: weighted Jaccard between two feature vectors. -/
def JaccardSimilarity (_c : Calculator) (v1 v2 : FeatureVector) : ℚ :=
  if v1.features.isEmpty || v2.features.isEmpty then 0
  else jaccardBody v1 v2

/-! ## Validator (pkg/validator) -/

/-- The character class `[a-fA-F0-9]`, by code point. -/
def isHexDigitGo (c : Char) : Bool :=
  (97 ≤ c.toNat && c.toNat ≤ 102) ||
    (65 ≤ c.toNat && c.toNat ≤ 70) ||
    (48 ≤ c.toNat && c.toNat ≤ 57)

/-- `hashRegex = ^[a-fA-F0-9]{8,128}$` as a whole-string predicate. -/
def hashRegexMatch (s : String) : Bool :=
  decide (8 ≤ s.data.length) && decide (s.data.length ≤ 128) && s.data.all isHexDigitGo

structure ValidationError where
  field : String
  message : String
deriving DecidableEq

/-- `ValidateIdentifyRequest` returns the accumulated validation errors in
source order; the Go function returns `nil` exactly when this list is
empty. -/
def ValidateIdentifyRequest (req : IdentifyRequest) : List ValidationError :=
  (if req.signals.canvas2DHash = "" then [⟨"canvas_2d_hash", "required"⟩]
   else if req.signals.canvas2DHash ≠ "error" ∧ req.signals.canvas2DHash ≠ "no_context" ∧
           ¬hashRegexMatch req.signals.canvas2DHash = true then
     [⟨"canvas_2d_hash", "invalid format"⟩]
   else []) ++
  (if req.signals.audioHash = "" then [⟨"audio_hash", "required"⟩] else []) ++
  (if req.signals.hardwareConcurrency < 0 ∨ 256 < req.signals.hardwareConcurrency then
    [⟨"hardware_concurrency", "out of range"⟩] else []) ++
  (if 1000 < goStrLen req.signals.userAgent then [⟨"user_agent", "too long"⟩] else [])

/-- `SanitizeString`: drop NUL (`ReplaceAll`), then keep only runes that are
`>= 32` or `\n` or `\t`. -/
def SanitizeString (s : String) : String :=
  let s1 := s.data.filter (fun r => r != Char.ofNat 0)
  String.mk (s1.filter (fun r => decide (32 ≤ r.toNat) || r == '\n' || r == '\t'))

/-! ## UUIDs (github.com/google/uuid)

A uuid is modelled by its canonical lowercase string form; `uuid.New()` is
modelled by drawing from a counter supply (randomness is irrelevant to every
claim, only freshness and the zero value matter). -/

def uuidNil : String := "00000000-0000-0000-0000-000000000000"

/-- The n-th uuid of the supply; a valid, never-nil v4-shaped uuid. -/
def uuidFromNat (n : Nat) : String :=
  "11111111-1111-4111-8111-" ++ padLeftZeros 12 (Nat.repr n)

/-- The canonical `xxxxxxxx-xxxx-xxxx-xxxx-xxxxxxxxxxxx` branch of
`uuid.Parse`. -/
def parseUUID36 (cs : List Char) : Option String :=
  if cs.getD 8 ' ' == '-' && cs.getD 13 ' ' == '-' &&
     cs.getD 18 ' ' == '-' && cs.getD 23 ' ' == '-' &&
     (cs.take 8 ++ ((cs.drop 9).take 4) ++ ((cs.drop 14).take 4) ++
      ((cs.drop 19).take 4) ++ cs.drop 24).all isHexDigitGo then
    some (String.mk (cs.map charToLower))
  else none

def uuidInsertDashes (cs : List Char) : List Char :=
  cs.take 8 ++ '-' :: ((cs.drop 8).take 4) ++ '-' :: ((cs.drop 12).take 4) ++
    '-' :: ((cs.drop 16).take 4) ++ '-' :: cs.drop 20

/-- `uuid.Parse`: dispatch on length — canonical 36, `urn:uuid:` + 36,
braced 38, bare 32-hex — returning the canonical lowercase form. -/
def parseUUID (s : String) : Option String :=
  let cs := s.data
  if cs.length = 36 then parseUUID36 cs
  else if cs.length = 45 then
    if asciiToLower (String.mk (cs.take 9)) == "urn:uuid:" then parseUUID36 (cs.drop 9)
    else none
  else if cs.length = 38 then
    if cs.getD 0 ' ' == '{' && cs.getD 37 ' ' == '}' then parseUUID36 ((cs.drop 1).take 36)
    else none
  else if cs.length = 32 then
    if cs.all isHexDigitGo then some (String.mk (uuidInsertDashes (cs.map charToLower)))
    else none
  else none

/-! ## Cache (pkg/cache)

The Redis keyspace holds `hw:` entries and `metric:` counters; the
namespaces are disjoint by prefix, so they are modelled as two association
lists. -/

structure CacheState where
  entries : List (String × String)
  metrics : List (String × Nat)
deriving DecidableEq

/-- `Cache.GetVisitorID`: Go returns `("", nil)` on a miss (`redis.Nil`), so
the model returns the stored string or `""`. -/
def GetVisitorID (c : CacheState) (hardwareHash : String) : String :=
  assocGetD c.entries ("hw:" ++ hardwareHash) ""

/-- `Cache.SetVisitorID`. -/
def SetVisitorID (c : CacheState) (hardwareHash visitorID : String) : CacheState :=
  { c with entries := assocSet c.entries ("hw:" ++ hardwareHash) visitorID }

/-- `Cache.IncrementMetric` (Redis `INCR` on `metric:<name>`). -/
def IncrementMetric (c : CacheState) (metric : String) : CacheState :=
  let key := "metric:" ++ metric
  { c with metrics := assocSet c.metrics key (assocGetD c.metrics key 0 + 1) }

/-- `Cache.GetMetric`: 0 on a missing counter. -/
def GetMetric (c : CacheState) (metric : String) : Nat :=
  assocGetD c.metrics ("metric:" ++ metric) 0

/-! ## Identity store (internal/repository over the migration schema) -/

structure StoreState where
  visitors : List Visitor
  identifications : List Identification
deriving DecidableEq

/-- The `ip_subnet` generated column:
`host(ip_address)::inet & '255.255.255.0'::inet`, which Postgres renders as
the `/24` network string for IPv4 addresses.  It agrees with the service's
`extractIPSubnet` on dotted quads, which is the only comparison the
candidate query performs. -/
def ipSubnetColumn (ipAddress : String) : String :=
  let parts := splitOnChar '.' ipAddress.data
  if parts.length = 4 then
    String.mk (parts.getD 0 []) ++ "." ++ String.mk (parts.getD 1 []) ++ "." ++
      String.mk (parts.getD 2 []) ++ ".0/24"
  else ipAddress

/-- `ORDER BY visitor_id, created_at DESC` as a boolean order on rows. -/
def identRowLe (a b : Identification) : Bool :=
  decide (a.visitorID < b.visitorID) ||
    (a.visitorID == b.visitorID && decide (b.createdAt ≤ a.createdAt))

/-- `DISTINCT ON (visitor_id)`: keep the first row of each visitor in the
sort order. -/
def distinctOnVisitor (seen : List String) : List Identification → List Identification
  | [] => []
  | i :: rest =>
      if seen.contains i.visitorID then distinctOnVisitor seen rest
      else i :: distinctOnVisitor (seen ++ [i.visitorID]) rest

/-- `Repository.FindSimilarVisitors`:
`SELECT DISTINCT ON (visitor_id) * FROM identifications WHERE ip_subnet = $1
ORDER BY visitor_id, created_at DESC LIMIT $2`. -/
def FindSimilarVisitors (store : StoreState) (ipSubnet : String) (limit : Nat) :
    List Identification :=
  let matching := store.identifications.filter (fun i => ipSubnetColumn i.ipAddress == ipSubnet)
  let ordered := sortBy identRowLe matching
  (distinctOnVisitor [] ordered).take limit

/-! ## Identification service (internal/services) -/

structure FingerprintConfig where
  similarityThreshold : ℚ
  hardwareWeight : ℚ
  environmentWeight : ℚ
  softwareWeight : ℚ
deriving DecidableEq

def DefaultFingerprintConfig : FingerprintConfig := ⟨3/4, 4/5, 1/2, 1/5⟩

/-- The whole system state one request acts on: store, cache, the uuid
supply and the clock that stamps `created_at`. -/
structure SysState where
  store : StoreState
  cache : CacheState
  uuidCounter : Nat
  clock : Nat
deriving DecidableEq

def initState : SysState := ⟨⟨[], []⟩, ⟨[], []⟩, 0, 0⟩

/-- `uuid.New()` against the supply. -/
def uuidNew (st : SysState) : String × SysState :=
  (uuidFromNat st.uuidCounter, { st with uuidCounter := st.uuidCounter + 1 })

/-- `Repository.CreateVisitor`. -/
def CreateVisitor (st : SysState) (ipAddress : String) : Visitor × SysState :=
  let (vid, st') := uuidNew st
  let visitor : Visitor :=
    { visitorID := vid, createdAt := st'.clock, updatedAt := st'.clock, trustScore := 1,
      firstSeenIP := some ipAddress, lastSeenIP := some ipAddress, visitCount := 1 }
  (visitor, { st' with store := { st'.store with visitors := st'.store.visitors ++ [visitor] } })

/-- `Repository.CreateIdentification` (append-only insert). -/
def CreateIdentification (st : SysState) (ident : Identification) : SysState :=
  let store' := { st.store with identifications := st.store.identifications ++ [ident] }
  { st with store := store', clock := st.clock + 1 }

/-- `extractIPSubnet`: the `/24` of a dotted quad, anything else passed
through. -/
def extractIPSubnet (ip : String) : String :=
  let parts := splitOnChar '.' ip.data
  if parts.length ≠ 4 then ip
  else String.mk (parts.getD 0 []) ++ "." ++ String.mk (parts.getD 1 []) ++ "." ++
    String.mk (parts.getD 2 []) ++ ".0/24"

/-- `detectBot`: bot/headless indicators. -/
def detectBot (signals : Signals) : Bool :=
  if signals.webDriver || signals.phantomPresent ||
     signals.seleniumPresent || signals.automationPresent then true
  else if signals.headlessChrome then true
  else if signals.canvas2DHash == "" || signals.canvas2DHash == "error" ||
          signals.audioHash == "" || signals.audioHash == "error" then true
  else if signals.hardwareConcurrency == 0 || signals.deviceMemory == 0 then true
  else if signals.webGLVendor == "Brian Paul" || signals.webGLRenderer == "Google SwiftShader" then
    true
  else false

/-- The candidate scan of `Identify` (step 5): extract each candidate's
vector, score it against the incoming vector, and track the single best
with a strict `>` comparison starting from `0.0` and `nil`. -/
def bestCandidate (calculator : Calculator) (incomingVector : FeatureVector)
    (candidates : List Identification) : ℚ × Option Identification :=
  candidates.foldl
    (fun acc candidate =>
      let score := JaccardSimilarity calculator incomingVector
        (ExtractFeatures calculator candidate.signals)
      if acc.1 < score then (score, some candidate) else acc)
    (0, none)

/-- Steps 3–6 of `Identify` on a cache miss, as one value: the best score
and best matching candidate for a request against a state's candidate
set. -/
def identifyBest (cfg : FingerprintConfig) (st : SysState) (req : IdentifyRequest) :
    ℚ × Option Identification :=
  let calculator := NewCalculator ⟨cfg.hardwareWeight, cfg.environmentWeight, cfg.softwareWeight⟩
  bestCandidate calculator (ExtractFeatures calculator req.signals)
    (FindSimilarVisitors st.store (extractIPSubnet req.ipAddress) 50)

/-- `IdentificationService.Identify`: cache probe, then extract → scope →
candidates → score → decide (heal / create) → persist → respond. -/
def Identify (cfg : FingerprintConfig) (st : SysState) (req : IdentifyRequest) :
    IdentifyResponse × SysState :=
  -- the service's calculator (from the configured weights) lives inside
  -- `identifyBest`, the only consumer on this path
  let hardwareHash := ComputeHardwareHash req.signals
  let cachedVisitorID := GetVisitorID st.cache hardwareHash
  if cachedVisitorID ≠ "" then
    -- cache hit: the parse error of a bad entry is discarded (`uuid.Parse`'s
    -- zero value stands in), confidence is pinned to 1.0
    let visitorUUID := (parseUUID cachedVisitorID).getD uuidNil
    let (requestID, st1) := uuidNew st
    let ident : Identification :=
      { requestID := requestID, visitorID := visitorUUID, ipAddress := req.ipAddress,
        userAgent := none, signals := req.signals, confidenceScore := 1,
        createdAt := st1.clock, hardwareHash := hardwareHash, isBot := detectBot req.signals }
    let st2 := CreateIdentification st1 ident
    let st3 := { st2 with cache := IncrementMetric st2.cache "cache_hits" }
    (⟨visitorUUID, 1, false, requestID⟩, st3)
  else
    -- steps 3–6: extract the incoming vector, scope to the /24 subnet,
    -- fetch candidates, score them (see `identifyBest`)
    let best := identifyBest cfg st req
    let decision : String × ℚ × Bool × SysState :=
      if cfg.similarityThreshold ≤ best.1 then
        match best.2 with
        | some bestMatch =>
            -- heal: reuse the best candidate's visitor id
            let cache1 := IncrementMetric
              (SetVisitorID st.cache hardwareHash bestMatch.visitorID) "healed_identifications"
            (bestMatch.visitorID, best.1, false, { st with cache := cache1 })
        | none =>
            let (visitor, stV) := CreateVisitor st req.ipAddress
            let cache1 := IncrementMetric
              (SetVisitorID stV.cache hardwareHash visitor.visitorID) "new_visitors"
            (visitor.visitorID, 1, true, { stV with cache := cache1 })
      else
        let (visitor, stV) := CreateVisitor st req.ipAddress
        let cache1 := IncrementMetric
          (SetVisitorID stV.cache hardwareHash visitor.visitorID) "new_visitors"
        (visitor.visitorID, 1, true, { stV with cache := cache1 })
    let visitorID := decision.1
    let confidence := decision.2.1
    let isNew := decision.2.2.1
    let stB := decision.2.2.2
    let (requestID, st4) := uuidNew stB
    let ident : Identification :=
      { requestID := requestID, visitorID := visitorID, ipAddress := req.ipAddress,
        userAgent := none, signals := req.signals, confidenceScore := confidence,
        createdAt := st4.clock, hardwareHash := hardwareHash, isBot := detectBot req.signals }
    let st5 := CreateIdentification st4 ident
    (⟨visitorID, confidence, isNew, requestID⟩, st5)

/-! ## HTTP handler glue (internal/handlers, internal/middleware) -/

/-- `middleware.AnonymizeIP`: zero the last octet of IPv4; anything else is
returned untouched. -/
def AnonymizeIP (ip : String) : String :=
  let parts := splitOnChar '.' ip.data
  if parts.length = 4 then
    String.mk (parts.getD 0 []) ++ "." ++ String.mk (parts.getD 1 []) ++ "." ++
      String.mk (parts.getD 2 []) ++ ".0"
  else ip

/-- The request the handler forwards to the engine after validation: the
signal bundle exactly as parsed, the anonymized connection IP filled in. -/
def engineRequest (req : IdentifyRequest) (connIP : String) : IdentifyRequest :=
  { req with ipAddress := AnonymizeIP connIP }

inductive HandlerResult where
  | badRequest (errors : List ValidationError)
  | ok (resp : IdentifyResponse)
deriving DecidableEq

/-- `Handler.Identify`: parse (already done here), validate, anonymize the
IP, run the engine, bump `total_identifications`. -/
def HandlerIdentify (cfg : FingerprintConfig) (st : SysState) (req : IdentifyRequest)
    (connIP : String) : HandlerResult × SysState :=
  let errors := ValidateIdentifyRequest req
  if errors ≠ [] then (.badRequest errors, st)
  else
    let r := Identify cfg st (engineRequest req connIP)
    (.ok r.1, { r.2 with cache := IncrementMetric r.2.cache "total_identifications" })

/-! ## Spec-side definitions

These transcribe the specification's own wording, for the refinement claims
that compare the code against it. -/

/-- All weights of a feature map are non-negative — the data model's
invariant on `FeatureMap` (`mapping from a textual feature key to a
non-negative feature weight`). -/
def fvNonneg (v : FeatureVector) : Prop :=
  ∀ p ∈ v.features, (0:ℚ) ≤ p.2

instance (v : FeatureVector) : Decidable (fvNonneg v) := by
  unfold fvNonneg; infer_instance

/-- Modelled from the spec: `intersection = Σ_k min(a[k], b[k])` — the sum
over shared keys of the smaller weight. -/
def specIntersection (a b : FeatureVector) : ℚ :=
  ∑ k ∈ fvKeys a ∩ fvKeys b, min ((fvFind a k).getD 0) ((fvFind b k).getD 0)

/-- Modelled from the spec: `union = Σ_k max(a[k], b[k])` over the union of
the key sets, an absent key counted as 0 on its side. -/
def specUnion (a b : FeatureVector) : ℚ :=
  ∑ k ∈ fvKeys a ∪ fvKeys b, max ((fvFind a k).getD 0) ((fvFind b k).getD 0)

/-- Modelled from the spec: the weighted Jaccard with its guards in the
spec's order — empty map 0.0, equal digests 1.0, zero union 0.0, otherwise
`intersection / union`. -/
def specJaccard (a b : FeatureVector) : ℚ :=
  if a.features.isEmpty || b.features.isEmpty then 0
  else if a.hash == b.hash then 1
  else if specUnion a b = 0 then 0
  else specIntersection a b / specUnion a b

/-- The string fields of a bundle (the top-level strings and the members of
its string lists), for the sanitization claim. -/
def signalStrings (s : Signals) : List String :=
  [s.canvas2DHash, s.webGLVendor, s.webGLRenderer, s.webGLHash, s.audioHash,
   s.audioContextHash, s.colorGamut, s.timeZone, s.platform, s.userAgent,
   s.vendor, s.permissionsHash, s.doNotTrack] ++
  s.webGLExtensions ++ s.languages ++ s.fonts ++ s.plugins

/-! ## Concrete fixtures for witnesses, counterexamples and scenarios -/

/-- The spec's S1 bundle, with the S2 user agent (Chrome 120) and the
platform the repository's own software-change test uses. -/
def s1Bundle : Signals :=
  { canvas2DHash := "abc123", audioHash := "def456", webGLVendor := "NVIDIA",
    webGLRenderer := "GeForce GTX 1080", hardwareConcurrency := 8, deviceMemory := 16,
    timeZone := "America/New_York", languages := ["en-US", "en"],
    userAgent := "Mozilla/5.0 Chrome/120.0.0.0", platform := "Win32" }

/-- The S2 variant: only the user agent changes, Chrome 120 → 121. -/
def s2Bundle : Signals :=
  { s1Bundle with userAgent := "Mozilla/5.0 Chrome/121.0.0.0" }

def reqS1 : IdentifyRequest := { signals := s1Bundle, ipAddress := "203.0.113.0" }

def reqS2 : IdentifyRequest := { signals := s2Bundle, ipAddress := "203.0.113.0" }

/-- First call of the S2 scenario, from the empty state. -/
def c4Call1 : IdentifyResponse × SysState :=
  Identify DefaultFingerprintConfig initState reqS1

/-- Second call of the S2 scenario, on the state the first call left. -/
def c4Call2 : IdentifyResponse × SysState :=
  Identify DefaultFingerprintConfig c4Call1.2 reqS2

/-- A configuration with the threshold at the bottom of its documented
`[0,1]` range. -/
def cfgZero : FingerprintConfig := { DefaultFingerprintConfig with similarityThreshold := 0 }

/-- Two bundles agreeing exactly on the six hardware-digest fields. -/
def hwBundleA : Signals :=
  { canvas2DHash := "aa11bb22", audioHash := "cc33dd44", webGLVendor := "VendorX",
    webGLRenderer := "RendererY", hardwareConcurrency := 8, deviceMemory := 16,
    colorDepth := 24, timeZone := "America/New_York", languages := ["en-US"],
    platform := "MacIntel", userAgent := "Mozilla/5.0 Chrome/120.0.0.0",
    fonts := ["Arial"], screenWidth := 1920, screenHeight := 1080 }

def hwBundleB : Signals :=
  { canvas2DHash := "aa11bb22", audioHash := "cc33dd44", webGLVendor := "VendorX",
    webGLRenderer := "RendererY", hardwareConcurrency := 8, deviceMemory := 16,
    colorDepth := 30, timeZone := "Europe/Paris", languages := ["fr"],
    platform := "Win32", userAgent := "Mozilla/5.0 Firefox/121.0",
    fonts := [], screenWidth := 800, screenHeight := 600, webDriver := true,
    vendor := "other", plugins := ["p"], maxTouchPoints := 5 }

/-- Small concrete feature vectors for the similarity witnesses. -/
def fvA : FeatureVector := ⟨[("canvas:a", mkRat 4 5), ("tz:utc", mkRat 1 2)], "h1"⟩

def fvB : FeatureVector := ⟨[("tz:utc", mkRat 1 5), ("fonts:x", mkRat 3 10)], "h2"⟩

/-- A cache state whose entry for `s1Bundle`'s hardware digest is a
non-empty string that no `uuid.Parse` branch accepts. -/
def stBadCache : SysState :=
  ⟨⟨[], []⟩, ⟨[("hw:" ++ ComputeHardwareHash s1Bundle, "not-a-uuid")], []⟩, 0, 0⟩

/-- A request that passes every validator rule. -/
def reqValid : IdentifyRequest :=
  { signals := { s1Bundle with canvas2DHash := "abc12345" } }

/-- A request with an empty audio digest. -/
def reqNoAudio : IdentifyRequest :=
  { signals := { s1Bundle with canvas2DHash := "abc12345", audioHash := "" } }

/-- A user agent carrying a NUL byte. -/
def nulUA : String := "Mozilla/5.0" ++ String.mk [Char.ofNat 0] ++ "Chrome/120.0.0.0"

/-- A request the validator accepts whose user agent carries a NUL byte. -/
def reqWithNul : IdentifyRequest :=
  { signals := { s1Bundle with canvas2DHash := "abc12345", userAgent := nulUA } }

/-! ## Helper lemmas on the association-list and cache operations -/

theorem assocFind_cons_self {β : Type} (l : List (String × β)) (k : String) (v : β) :
    assocFind ((k, v) :: l) k = some v := by
  simp [assocFind, List.find?]

theorem assocGetD_cons_self {β : Type} (l : List (String × β)) (k : String) (v d : β) :
    assocGetD ((k, v) :: l) k d = v := by
  simp [assocGetD, assocFind_cons_self]

theorem assocFind_assocSet_self {β : Type} (l : List (String × β)) (k : String) (v : β) :
    assocFind (assocSet l k v) k = some v := by
  induction l with
  | nil => simp [assocSet, assocFind, List.find?]
  | cons p rest ih =>
      obtain ⟨k', v'⟩ := p
      by_cases h : (k' == k) = true
      · simp [assocSet, h, assocFind, List.find?]
      · simp only [assocSet, h, Bool.false_eq_true, if_false]
        simpa [assocFind, List.find?, h] using ih

theorem GetVisitorID_SetVisitorID (c : CacheState) (h v : String) :
    GetVisitorID (SetVisitorID c h v) h = v := by
  simp [GetVisitorID, SetVisitorID, assocGetD, assocFind_assocSet_self]

theorem GetVisitorID_IncrementMetric (c : CacheState) (m h : String) :
    GetVisitorID (IncrementMetric c m) h = GetVisitorID c h := rfl

theorem GetMetric_IncrementMetric_self (c : CacheState) (m : String) :
    GetMetric (IncrementMetric c m) m = GetMetric c m + 1 := by
  simp [GetMetric, IncrementMetric, assocGetD, assocFind_assocSet_self]

theorem GetMetric_SetVisitorID (c : CacheState) (h v m : String) :
    GetMetric (SetVisitorID c h v) m = GetMetric c m := rfl

/-! ## C3 — hardware digest -/

/-- C3: `ComputeHardwareHash` is the SHA-256 hex digest of the ordered
concatenation of canvas digest, audio digest, WebGL vendor, WebGL renderer,
logical CPU count and device memory joined by `|`; consequently two bundles
that agree on those six fields have identical hardware digests, whatever
their other fields. -/
theorem C3_hardware_digest (s1 s2 : Signals)
    (hc : s1.canvas2DHash = s2.canvas2DHash) (ha : s1.audioHash = s2.audioHash)
    (hv : s1.webGLVendor = s2.webGLVendor) (hr : s1.webGLRenderer = s2.webGLRenderer)
    (hn : s1.hardwareConcurrency = s2.hardwareConcurrency)
    (hm : s1.deviceMemory = s2.deviceMemory) :
    ComputeHardwareHash s1 = sha256Hex (String.intercalate "|"
      [s1.canvas2DHash, s1.audioHash, s1.webGLVendor, s1.webGLRenderer,
       toString s1.hardwareConcurrency, fmtF0 s1.deviceMemory]) ∧
    ComputeHardwareHash s1 = ComputeHardwareHash s2 := by
  refine ⟨rfl, ?_⟩
  unfold ComputeHardwareHash
  rw [hc, ha, hv, hr, hn, hm]

/-- Witness for C3 at two concrete bundles that differ in color depth,
timezone, languages, platform, user agent, fonts, screen geometry, vendor,
plugins, touch points and the webdriver flag. -/
theorem C3_hardware_digest_witness :
    ComputeHardwareHash hwBundleA = sha256Hex (String.intercalate "|"
      [hwBundleA.canvas2DHash, hwBundleA.audioHash, hwBundleA.webGLVendor,
       hwBundleA.webGLRenderer, toString hwBundleA.hardwareConcurrency,
       fmtF0 hwBundleA.deviceMemory]) ∧
    ComputeHardwareHash hwBundleA = ComputeHardwareHash hwBundleB :=
  C3_hardware_digest hwBundleA hwBundleB rfl rfl rfl rfl rfl rfl

/-! ## C8 — browser/version extraction -/

theorem ebvLoop_all_missing (ua : List Char) (bs : List String)
    (h : ∀ b ∈ bs, strIndexAux b.data ua = none) : ebvLoop ua bs = "unknown" := by
  induction bs with
  | nil => rfl
  | cons b rest ih =>
      have hb := h b (List.mem_cons_self b rest)
      unfold ebvLoop
      rw [hb]
      exact ih fun x hx => h x (List.mem_cons_of_mem _ hx)

/-- Counterexample for C8: on a non-empty user agent containing no browser
token, `extractBrowserVersion` returns the literal `"unknown"`, not the
empty string the claim specifies. -/
theorem C8_claim_counterexample :
    extractBrowserVersion "curl/7.68.0" = "unknown" ∧ "unknown" ≠ "" := by
  exact ⟨by decide, by decide⟩

/-- C8 (amended): `extractBrowserVersion` lowercases the user agent, scans
for the browser tokens chrome, firefox, safari, edge, opera, takes the
substring after the next `/` up to the first `.` and returns
`<browser>:<major>`; it returns the empty string on empty input, and it
returns the literal `"unknown"` — not the empty string — when no browser
token occurs in a non-empty user agent. -/
theorem C8_browser_version_extraction :
    extractBrowserVersion "" = "" ∧
    (∀ ua : String, ua ≠ "" →
      (∀ b ∈ browserTokens, strIndexAux b.data (asciiToLower ua).data = none) →
      extractBrowserVersion ua = "unknown") ∧
    extractBrowserVersion
      "Mozilla/5.0 (Windows NT 10.0; Win64; x64) AppleWebKit/537.36 Chrome/120.0.0.0 Safari/537.36"
      = "chrome:120" ∧
    extractBrowserVersion "Mozilla/5.0 (Macintosh; Intel Mac OS X 10_15_7) Firefox/121.0"
      = "firefox:121" := by
  refine ⟨rfl, ?_, by decide, by decide⟩
  intro ua hne h
  unfold extractBrowserVersion
  rw [if_neg hne]
  exact ebvLoop_all_missing _ _ h

/-- Witness for C8's quantified clause at a concrete token-free user
agent. -/
theorem C8_browser_version_extraction_witness :
    extractBrowserVersion "wget/1.21" = "unknown" :=
  C8_browser_version_extraction.2.1 "wget/1.21" (by decide) (by decide)

/-! ## C10 — the eight unconditional feature keys -/

/-- C10: for every weight table and bundle, the extracted feature map holds
the eight unconditionally emitted keys, is therefore never empty, and the
Jaccard similarity of two extracted vectors never takes the empty-map early
return: it always equals the post-guard body. -/
theorem C10_unconditional_features (w : Weights) (s s1 s2 : Signals) :
    ("webgl:" ++ s.webGLVendor ++ ":" ++ s.webGLRenderer)
      ∈ (ExtractFeatures (NewCalculator w) s).features.map Prod.fst ∧
    ("webgl_ext:" ++ hashStringSlice s.webGLExtensions)
      ∈ (ExtractFeatures (NewCalculator w) s).features.map Prod.fst ∧
    ("hw_concurrency:" ++ toString s.hardwareConcurrency)
      ∈ (ExtractFeatures (NewCalculator w) s).features.map Prod.fst ∧
    ("device_memory:" ++ fmtF0 s.deviceMemory)
      ∈ (ExtractFeatures (NewCalculator w) s).features.map Prod.fst ∧
    ("color_depth:" ++ toString s.colorDepth)
      ∈ (ExtractFeatures (NewCalculator w) s).features.map Prod.fst ∧
    ("lang:" ++ hashStringSlice s.languages)
      ∈ (ExtractFeatures (NewCalculator w) s).features.map Prod.fst ∧
    ("fonts:" ++ hashStringSlice s.fonts)
      ∈ (ExtractFeatures (NewCalculator w) s).features.map Prod.fst ∧
    ("screen:" ++ toString s.screenWidth ++ "x" ++ toString s.screenHeight)
      ∈ (ExtractFeatures (NewCalculator w) s).features.map Prod.fst ∧
    (ExtractFeatures (NewCalculator w) s).features ≠ [] ∧
    JaccardSimilarity (NewCalculator w) (ExtractFeatures (NewCalculator w) s1)
        (ExtractFeatures (NewCalculator w) s2)
      = jaccardBody (ExtractFeatures (NewCalculator w) s1)
          (ExtractFeatures (NewCalculator w) s2) := by
  have hne : ∀ t : Signals, (ExtractFeatures (NewCalculator w) t).features ≠ [] := by
    intro t
    unfold ExtractFeatures
    dsimp only
    intro hcontra
    simp only [List.append_eq_nil, List.cons_ne_nil, false_and, and_false] at hcontra
  refine ⟨?_, ?_, ?_, ?_, ?_, ?_, ?_, ?_, hne s, ?_⟩ <;>
    first
      | (unfold ExtractFeatures
         dsimp only
         simp only [List.map_append, List.mem_append, List.map_cons, List.map_nil,
           List.mem_cons, List.not_mem_nil, List.mem_singleton, or_false, false_or]
         tauto)
      | (unfold JaccardSimilarity
         rw [if_neg]
         simp only [Bool.or_eq_true, List.isEmpty_iff, not_or]
         exact ⟨hne s1, hne s2⟩)

/-! ## C7 — request validation -/

/-- C7: `ValidateIdentifyRequest` succeeds exactly when the canvas digest is
non-empty and is a sentinel (`error`, `no_context`) or matches
`^[0-9a-fA-F]{8,128}$`, the audio digest is non-empty, the logical CPU count
lies in `[0, 256]` and the user agent is at most 1000 bytes; each violation
contributes an error naming the offending field. -/
theorem C7_validate_identify_request (req : IdentifyRequest) :
    (ValidateIdentifyRequest req = [] ↔
      (req.signals.canvas2DHash ≠ "" ∧
       (req.signals.canvas2DHash = "error" ∨ req.signals.canvas2DHash = "no_context" ∨
         hashRegexMatch req.signals.canvas2DHash = true) ∧
       req.signals.audioHash ≠ "" ∧
       0 ≤ req.signals.hardwareConcurrency ∧ req.signals.hardwareConcurrency ≤ 256 ∧
       goStrLen req.signals.userAgent ≤ 1000)) ∧
    (∀ s : String, hashRegexMatch s = true ↔
      8 ≤ s.data.length ∧ s.data.length ≤ 128 ∧ ∀ c ∈ s.data, isHexDigitGo c = true) ∧
    ((req.signals.canvas2DHash = "" ∨
      (req.signals.canvas2DHash ≠ "error" ∧ req.signals.canvas2DHash ≠ "no_context" ∧
        ¬hashRegexMatch req.signals.canvas2DHash = true)) →
      "canvas_2d_hash" ∈ (ValidateIdentifyRequest req).map ValidationError.field) ∧
    (req.signals.audioHash = "" →
      "audio_hash" ∈ (ValidateIdentifyRequest req).map ValidationError.field) ∧
    ((req.signals.hardwareConcurrency < 0 ∨ 256 < req.signals.hardwareConcurrency) →
      "hardware_concurrency" ∈ (ValidateIdentifyRequest req).map ValidationError.field) ∧
    (1000 < goStrLen req.signals.userAgent →
      "user_agent" ∈ (ValidateIdentifyRequest req).map ValidationError.field) := by
  refine ⟨?_, ?_, ?_, ?_, ?_, ?_⟩
  · unfold ValidateIdentifyRequest
    split_ifs <;>
      simp_all [List.append_eq_nil] <;>
      first
        | omega
        | tauto
  · intro s
    simp [hashRegexMatch, List.all_eq_true, decide_eq_true_iff]
    tauto
  · intro h
    unfold ValidateIdentifyRequest
    split_ifs <;> simp_all
  · intro h
    unfold ValidateIdentifyRequest
    split_ifs <;> simp_all
  · intro h
    unfold ValidateIdentifyRequest
    split_ifs <;> simp_all
  · intro h
    unfold ValidateIdentifyRequest
    split_ifs <;> simp_all

/-- Witness for C7: a fully valid request yields no errors; an empty audio
digest is reported under its field name. -/
theorem C7_validate_identify_request_witness :
    ValidateIdentifyRequest reqValid = [] ∧
    "audio_hash" ∈ (ValidateIdentifyRequest reqNoAudio).map ValidationError.field :=
  ⟨(C7_validate_identify_request reqValid).1.mpr (by decide),
   (C7_validate_identify_request reqNoAudio).2.2.2.1 (by decide)⟩

/-! ## C9 — sanitization of the bundle the engine processes -/

/-- A character survives `SanitizeString`'s second pass. -/
def keepChar (r : Char) : Bool :=
  decide (32 ≤ r.toNat) || r == '\n' || r == '\t'

theorem filter_nul_absorbed (l : List Char) :
    (l.filter (fun r => r != Char.ofNat 0)).filter keepChar = l.filter keepChar := by
  induction l with
  | nil => rfl
  | cons c rest ih =>
      by_cases h0 : (c != Char.ofNat 0) = true
      · simp only [List.filter_cons, h0, if_true]
        by_cases hk : keepChar c = true <;> simp [hk, ih]
      · have hc : c = Char.ofNat 0 := by
          simpa [bne] using h0
      -- a NUL character is dropped by both sides: it fails `keepChar` too
        have hk : keepChar c = false := by
          subst hc
          decide
        simp [List.filter_cons, h0, hk, ih]

/-- Counterexample for C9: the validator accepts a request whose user agent
holds a NUL byte, and the bundle the engine then processes still carries
that user agent unchanged — its string fields were not stripped. -/
theorem C9_claim_counterexample :
    ValidateIdentifyRequest reqWithNul = [] ∧
    nulUA ∈ signalStrings (engineRequest reqWithNul "198.51.100.7").signals ∧
    SanitizeString nulUA ≠ nulUA := by
  exact ⟨by decide, by decide, by decide⟩

/-- C9 (amended): `SanitizeString` strips NUL and every control byte other
than `\n` and `\t` (and fixes strings that carry none), but nothing on the
identify path applies it: the engine-side request carries the parsed signal
bundle verbatim, and the handler runs the engine on exactly that request. -/
theorem C9_no_sanitization_on_identify_path :
    (∀ s : String, (SanitizeString s).data = s.data.filter keepChar) ∧
    (∀ s : String, (∀ c ∈ s.data, keepChar c = true) → SanitizeString s = s) ∧
    (∀ (req : IdentifyRequest) (connIP : String),
      (engineRequest req connIP).signals = req.signals) ∧
    (∀ (cfg : FingerprintConfig) (st : SysState) (req : IdentifyRequest) (connIP : String),
      ValidateIdentifyRequest req = [] →
      HandlerIdentify cfg st req connIP =
        ((HandlerResult.ok (Identify cfg st (engineRequest req connIP)).1),
         { (Identify cfg st (engineRequest req connIP)).2 with
            cache := IncrementMetric (Identify cfg st (engineRequest req connIP)).2.cache
              "total_identifications" })) := by
  refine ⟨?_, ?_, ?_, ?_⟩
  · intro s
    show ((s.data.filter _).filter _) = _
    exact filter_nul_absorbed s.data
  · intro s h
    have hd : (SanitizeString s).data = s.data.filter keepChar := filter_nul_absorbed s.data
    apply String.ext
    rw [hd]
    exact List.filter_eq_self.mpr h
  · intro req connIP
    rfl
  · intro cfg st req connIP h
    unfold HandlerIdentify
    simp [h]

/-- Witness for C9's conditional clauses at concrete inputs. -/
theorem C9_no_sanitization_on_identify_path_witness :
    SanitizeString "Mozilla/5.0" = "Mozilla/5.0" ∧
    (engineRequest reqWithNul "198.51.100.7").signals = reqWithNul.signals :=
  ⟨C9_no_sanitization_on_identify_path.2.1 "Mozilla/5.0" (by decide),
   C9_no_sanitization_on_identify_path.2.2.1 reqWithNul "198.51.100.7"⟩

/-! ## Lemmas on feature-vector lookups and the Jaccard accumulation -/

theorem fvFind_nonneg (v : FeatureVector) (hv : fvNonneg v) (k : String) (w : ℚ)
    (h : fvFind v k = some w) : 0 ≤ w := by
  unfold fvFind assocFind at h
  obtain ⟨p, hp, hpw⟩ := Option.map_eq_some'.mp h
  exact hpw ▸ hv p (List.mem_of_find?_eq_some hp)

theorem fvFind_isSome_of_mem (v : FeatureVector) (k : String) (h : k ∈ fvKeys v) :
    (fvFind v k).isSome = true := by
  unfold fvKeys at h
  rw [List.mem_toFinset, List.mem_map] at h
  obtain ⟨p, hp, rfl⟩ := h
  unfold fvFind assocFind
  rw [Option.isSome_map']
  rw [List.find?_isSome]
  exact ⟨p, hp, by simp⟩

theorem fvFind_eq_none_of_not_mem (v : FeatureVector) (k : String) (h : k ∉ fvKeys v) :
    fvFind v k = none := by
  unfold fvFind assocFind
  rw [Option.map_eq_none']
  rw [List.find?_eq_none]
  intro p hp
  simp only [beq_iff_eq]
  intro hpk
  exact h (by
    unfold fvKeys
    rw [List.mem_toFinset, List.mem_map]
    exact ⟨p, hp, hpk⟩)

theorem jContrib_bounds (v1 v2 : FeatureVector) (h1 : fvNonneg v1) (h2 : fvNonneg v2)
    (k : String) :
    (jContrib v1 v2 k).1 ≤ (jContrib v1 v2 k).2 ∧ 0 ≤ (jContrib v1 v2 k).1 := by
  unfold jContrib
  cases hf1 : fvFind v1 k with
  | none =>
      cases hf2 : fvFind v2 k with
      | none => simp
      | some w2 => simpa using fvFind_nonneg v2 h2 k w2 hf2
  | some w1 =>
      cases hf2 : fvFind v2 k with
      | none => simpa using fvFind_nonneg v1 h1 k w1 hf1
      | some w2 =>
          refine ⟨?_, ?_⟩
          · exact le_trans (min_le_left w1 w2) (le_max_left w1 w2)
          · exact le_min (fvFind_nonneg v1 h1 k w1 hf1) (fvFind_nonneg v2 h2 k w2 hf2)

theorem jContrib_fst_comm (v1 v2 : FeatureVector) (k : String) :
    (jContrib v1 v2 k).1 = (jContrib v2 v1 k).1 := by
  unfold jContrib
  cases fvFind v1 k <;> cases fvFind v2 k <;> simp [min_comm]

theorem jContrib_snd_comm (v1 v2 : FeatureVector) (k : String) :
    (jContrib v1 v2 k).2 = (jContrib v2 v1 k).2 := by
  unfold jContrib
  cases fvFind v1 k <;> cases fvFind v2 k <;> simp [max_comm]

theorem specUnion_eq_sum (a b : FeatureVector) (ha : fvNonneg a) (hb : fvNonneg b) :
    ∑ k ∈ fvKeys a ∪ fvKeys b, (jContrib a b k).2 = specUnion a b := by
  unfold specUnion
  refine Finset.sum_congr rfl ?_
  intro k hk
  unfold jContrib
  cases hf1 : fvFind a k with
  | some w1 =>
      cases hf2 : fvFind b k with
      | some w2 => simp
      | none =>
          simp only [Option.getD_some, Option.getD_none]
          exact (max_eq_left (fvFind_nonneg a ha k w1 hf1)).symm
  | none =>
      cases hf2 : fvFind b k with
      | some w2 =>
          simp only [Option.getD_some, Option.getD_none]
          exact (max_eq_right (fvFind_nonneg b hb k w2 hf2)).symm
      | none =>
          exfalso
          rcases Finset.mem_union.mp hk with hk1 | hk1
          · have hs := fvFind_isSome_of_mem a k hk1
            rw [hf1] at hs
            exact Bool.false_ne_true hs
          · have hs := fvFind_isSome_of_mem b k hk1
            rw [hf2] at hs
            exact Bool.false_ne_true hs

theorem specIntersection_eq_sum (a b : FeatureVector) :
    ∑ k ∈ fvKeys a ∪ fvKeys b, (jContrib a b k).1 = specIntersection a b := by
  unfold specIntersection
  have hsub : fvKeys a ∩ fvKeys b ⊆ fvKeys a ∪ fvKeys b :=
    le_trans Finset.inter_subset_left Finset.subset_union_left
  have hzero : ∀ k ∈ fvKeys a ∪ fvKeys b, k ∉ fvKeys a ∩ fvKeys b →
      (jContrib a b k).1 = 0 := by
    intro k _ hk
    rw [Finset.mem_inter] at hk
    push_neg at hk
    by_cases hka : k ∈ fvKeys a
    · have hnb := fvFind_eq_none_of_not_mem b k (hk hka)
      unfold jContrib
      rw [hnb]
      cases fvFind a k <;> simp
    · have hna := fvFind_eq_none_of_not_mem a k hka
      unfold jContrib
      rw [hna]
      cases fvFind b k <;> simp
  rw [← Finset.sum_subset hsub hzero]
  refine Finset.sum_congr rfl ?_
  intro k hk
  rw [Finset.mem_inter] at hk
  obtain ⟨w1, hf1⟩ := Option.isSome_iff_exists.mp (fvFind_isSome_of_mem a k hk.1)
  obtain ⟨w2, hf2⟩ := Option.isSome_iff_exists.mp (fvFind_isSome_of_mem b k hk.2)
  unfold jContrib
  rw [hf1, hf2]
  simp

/-! ## C2 — the Jaccard computation matches the spec's formula -/

/-- C2: for feature vectors whose weights are non-negative (the data model's
invariant), `JaccardSimilarity` is exactly the spec's weighted Jaccard: 0.0
on an empty map, 1.0 on equal vector digests, then
`Σ min / Σ max` over the union of keys with absent keys as 0, and 0.0 when
that denominator is zero. -/
theorem C2_jaccard_matches_spec (c : Calculator) (a b : FeatureVector)
    (ha : fvNonneg a) (hb : fvNonneg b) :
    JaccardSimilarity c a b = specJaccard a b := by
  unfold JaccardSimilarity specJaccard jaccardBody
  dsimp only
  rw [specIntersection_eq_sum a b, specUnion_eq_sum a b ha hb]

/-- Witness for C2 at two small concrete vectors with one shared key. -/
theorem C2_jaccard_matches_spec_witness :
    JaccardSimilarity (NewCalculator DefaultWeights) fvA fvB = specJaccard fvA fvB :=
  C2_jaccard_matches_spec (NewCalculator DefaultWeights) fvA fvB (by decide) (by decide)

/-! ## C5 — algebraic properties of the similarity -/

theorem jaccardBody_comm (v1 v2 : FeatureVector) : jaccardBody v1 v2 = jaccardBody v2 v1 := by
  unfold jaccardBody
  by_cases hh : v1.hash = v2.hash
  · simp [hh]
  · have hh' : ¬v2.hash = v1.hash := fun e => hh e.symm
    have hb1 : ¬((v1.hash == v2.hash) = true) := by simpa using hh
    have hb2 : ¬((v2.hash == v1.hash) = true) := by simpa using hh'
    rw [if_neg hb1, if_neg hb2]
    dsimp only
    have hU : ∑ k ∈ fvKeys v1 ∪ fvKeys v2, (jContrib v1 v2 k).2 =
        ∑ k ∈ fvKeys v2 ∪ fvKeys v1, (jContrib v2 v1 k).2 := by
      rw [Finset.union_comm]
      exact Finset.sum_congr rfl (fun k _ => jContrib_snd_comm v1 v2 k)
    have hI : ∑ k ∈ fvKeys v1 ∪ fvKeys v2, (jContrib v1 v2 k).1 =
        ∑ k ∈ fvKeys v2 ∪ fvKeys v1, (jContrib v2 v1 k).1 := by
      rw [Finset.union_comm]
      exact Finset.sum_congr rfl (fun k _ => jContrib_fst_comm v1 v2 k)
    rw [hU, hI]

/-- C5: `JaccardSimilarity` is commutative; under the data model's
non-negative weights it stays within `[0, 1]`; and on any vector with a
non-empty feature map it is reflexive with value exactly 1.0. -/
theorem C5_jaccard_properties (c : Calculator) (a b : FeatureVector) :
    JaccardSimilarity c a b = JaccardSimilarity c b a ∧
    (fvNonneg a → fvNonneg b →
      0 ≤ JaccardSimilarity c a b ∧ JaccardSimilarity c a b ≤ 1) ∧
    (a.features ≠ [] → JaccardSimilarity c a a = 1) := by
  refine ⟨?_, ?_, ?_⟩
  · unfold JaccardSimilarity
    rw [Bool.or_comm, jaccardBody_comm]
  · intro ha hb
    unfold JaccardSimilarity
    by_cases he : (a.features.isEmpty || b.features.isEmpty) = true
    · rw [if_pos he]
      norm_num
    · rw [if_neg he]
      unfold jaccardBody
      by_cases hh : (a.hash == b.hash) = true
      · rw [if_pos hh]
        norm_num
      · rw [if_neg hh]
        have hI0 : (0:ℚ) ≤ ∑ k ∈ fvKeys a ∪ fvKeys b, (jContrib a b k).1 :=
          Finset.sum_nonneg fun k _ => (jContrib_bounds a b ha hb k).2
        have hIU : ∑ k ∈ fvKeys a ∪ fvKeys b, (jContrib a b k).1 ≤
            ∑ k ∈ fvKeys a ∪ fvKeys b, (jContrib a b k).2 :=
          Finset.sum_le_sum fun k _ => (jContrib_bounds a b ha hb k).1
        by_cases hu : (∑ k ∈ fvKeys a ∪ fvKeys b, (jContrib a b k).2) = 0
        · rw [if_pos hu]
          norm_num
        · rw [if_neg hu]
          have hpos : 0 < ∑ k ∈ fvKeys a ∪ fvKeys b, (jContrib a b k).2 :=
            lt_of_le_of_ne (le_trans hI0 hIU) (Ne.symm hu)
          exact ⟨div_nonneg hI0 hpos.le, (div_le_one hpos).mpr hIU⟩
  · intro hne
    unfold JaccardSimilarity jaccardBody
    rw [if_neg (by simp [List.isEmpty_iff, hne]), if_pos (beq_self_eq_true a.hash)]

/-- Witness for C5 at concrete vectors: symmetry, range and reflexivity all
evaluated. -/
theorem C5_jaccard_properties_witness :
    JaccardSimilarity (NewCalculator DefaultWeights) fvA fvB =
      JaccardSimilarity (NewCalculator DefaultWeights) fvB fvA ∧
    (0 ≤ JaccardSimilarity (NewCalculator DefaultWeights) fvA fvB ∧
      JaccardSimilarity (NewCalculator DefaultWeights) fvA fvB ≤ 1) ∧
    JaccardSimilarity (NewCalculator DefaultWeights) fvA fvA = 1 :=
  ⟨(C5_jaccard_properties (NewCalculator DefaultWeights) fvA fvB).1,
   (C5_jaccard_properties (NewCalculator DefaultWeights) fvA fvB).2.1 (by decide) (by decide),
   (C5_jaccard_properties (NewCalculator DefaultWeights) fvA fvA).2.2 (by decide)⟩

/-! ## C6 — behaviour on an unparseable cached uuid -/

/-- Counterexample for C6: with the cache holding `"not-a-uuid"` under the
request's hardware-digest key, `Identify` does not fall through to feature
extraction and candidate scoring — it returns a cache-hit response
(`is_new = false`, confidence 1.0) built around the zero uuid, creates no
visitor, and bumps `cache_hits`.  The claim would demand a miss, which on
this candidate-free state would create a visitor and answer
`is_new = true`. -/
theorem C6_claim_counterexample :
    parseUUID "not-a-uuid" = none ∧
    (Identify DefaultFingerprintConfig stBadCache reqS1).1 =
      ⟨uuidNil, 1, false, uuidFromNat 0⟩ ∧
    (Identify DefaultFingerprintConfig stBadCache reqS1).2.store.visitors = [] ∧
    GetMetric (Identify DefaultFingerprintConfig stBadCache reqS1).2.cache "cache_hits" = 1 := by
  refine ⟨by decide, ?_, ?_, ?_⟩
  · with_unfolding_all rfl
  · with_unfolding_all rfl
  · with_unfolding_all rfl

/-- C6 (amended): when the cache probe yields a non-empty stored string that
`uuid.Parse` rejects, `Identify` still takes the cache-hit path: the parse
error is discarded, the response is `is_new = false` with confidence 1.0 and
the zero uuid as visitor id, no visitor row is created, and `cache_hits` is
bumped. -/
theorem C6_unparseable_cache_entry (cfg : FingerprintConfig) (st : SysState)
    (req : IdentifyRequest) (v : String)
    (hv : GetVisitorID st.cache (ComputeHardwareHash req.signals) = v)
    (hne : v ≠ "") (hbad : parseUUID v = none) :
    (Identify cfg st req).1.isNew = false ∧
    (Identify cfg st req).1.confidence = 1 ∧
    (Identify cfg st req).1.visitorID = uuidNil ∧
    (Identify cfg st req).2.store.visitors = st.store.visitors ∧
    GetMetric (Identify cfg st req).2.cache "cache_hits"
      = GetMetric st.cache "cache_hits" + 1 := by
  unfold Identify
  dsimp only
  rw [hv, if_pos hne, hbad]
  refine ⟨rfl, rfl, rfl, rfl, ?_⟩
  exact GetMetric_IncrementMetric_self st.cache "cache_hits"

/-- Witness for C6's amended theorem at the concrete bad-entry state. -/
theorem C6_unparseable_cache_entry_witness :
    (Identify DefaultFingerprintConfig stBadCache reqS1).1.isNew = false ∧
    (Identify DefaultFingerprintConfig stBadCache reqS1).1.confidence = 1 ∧
    (Identify DefaultFingerprintConfig stBadCache reqS1).1.visitorID = uuidNil ∧
    (Identify DefaultFingerprintConfig stBadCache reqS1).2.store.visitors
      = stBadCache.store.visitors ∧
    GetMetric (Identify DefaultFingerprintConfig stBadCache reqS1).2.cache "cache_hits"
      = GetMetric stBadCache.cache "cache_hits" + 1 :=
  C6_unparseable_cache_entry DefaultFingerprintConfig stBadCache reqS1 "not-a-uuid"
    (assocGetD_cons_self [] ("hw:" ++ ComputeHardwareHash reqS1.signals) "not-a-uuid" "")
    (by decide) (by decide)

/-! ## C1 — the heal / create decision on a cache miss -/

/-- Counterexample for C1: with the similarity threshold configured to 0
(the bottom of its documented range) and no candidates, the best score the
scan computes is 0, so the claim's condition `best ≥ threshold` holds — yet
`Identify` creates a fresh visitor and answers `is_new = true`, because the
code additionally requires a non-nil best match, which only a strictly
positive score can set. -/
theorem C1_claim_counterexample :
    GetVisitorID initState.cache (ComputeHardwareHash reqS1.signals) = "" ∧
    cfgZero.similarityThreshold ≤ (identifyBest cfgZero initState reqS1).1 ∧
    (Identify cfgZero initState reqS1).1.isNew = true := by
  refine ⟨rfl, ?_, ?_⟩
  · exact le_refl (0:ℚ)
  · with_unfolding_all rfl

/-- C1 (amended): on a cache miss, `Identify` heals exactly when the best
score is at least the threshold AND the scan recorded a best match (which
requires a strictly positive score): it then reuses that candidate's
visitor id, reports the best score as confidence with `is_new = false`,
writes the hardware-digest cache entry and bumps `healed_identifications`;
otherwise it creates a fresh visitor, reports confidence 1.0 with
`is_new = true`, writes the cache entry and bumps `new_visitors`. -/
theorem C1_identify_decision (cfg : FingerprintConfig) (st : SysState) (req : IdentifyRequest)
    (hmiss : GetVisitorID st.cache (ComputeHardwareHash req.signals) = "") :
    ((Identify cfg st req).1.isNew = false ↔
      (cfg.similarityThreshold ≤ (identifyBest cfg st req).1 ∧
        (identifyBest cfg st req).2.isSome = true)) ∧
    (∀ best, (identifyBest cfg st req).2 = some best →
      cfg.similarityThreshold ≤ (identifyBest cfg st req).1 →
      (Identify cfg st req).1.visitorID = best.visitorID ∧
      (Identify cfg st req).1.confidence = (identifyBest cfg st req).1 ∧
      (Identify cfg st req).1.isNew = false ∧
      GetVisitorID (Identify cfg st req).2.cache (ComputeHardwareHash req.signals)
        = best.visitorID ∧
      GetMetric (Identify cfg st req).2.cache "healed_identifications"
        = GetMetric st.cache "healed_identifications" + 1 ∧
      (Identify cfg st req).2.store.visitors = st.store.visitors) ∧
    (¬(cfg.similarityThreshold ≤ (identifyBest cfg st req).1 ∧
        (identifyBest cfg st req).2.isSome = true) →
      (Identify cfg st req).1.isNew = true ∧
      (Identify cfg st req).1.confidence = 1 ∧
      (Identify cfg st req).1.visitorID = uuidFromNat st.uuidCounter ∧
      GetVisitorID (Identify cfg st req).2.cache (ComputeHardwareHash req.signals)
        = uuidFromNat st.uuidCounter ∧
      GetMetric (Identify cfg st req).2.cache "new_visitors"
        = GetMetric st.cache "new_visitors" + 1 ∧
      (Identify cfg st req).2.store.visitors
        = st.store.visitors ++ [(CreateVisitor st req.ipAddress).1]) := by
  unfold Identify
  dsimp only
  rw [hmiss, if_neg (not_not_intro rfl)]
  by_cases hth : cfg.similarityThreshold ≤ (identifyBest cfg st req).1
  · rw [if_pos hth]
    cases hb : (identifyBest cfg st req).2 with
    | some best =>
        refine ⟨?_, ?_, ?_⟩
        · exact iff_of_true rfl ⟨hth, rfl⟩
        · intro b hbb _
          obtain rfl : best = b := by injection hbb
          refine ⟨rfl, rfl, rfl, ?_, ?_, rfl⟩
          · exact (GetVisitorID_IncrementMetric _ _ _).trans (GetVisitorID_SetVisitorID _ _ _)
          · exact GetMetric_IncrementMetric_self (SetVisitorID st.cache _ _) _
        · intro h
          exact absurd ⟨hth, rfl⟩ h
    | none =>
        refine ⟨?_, ?_, ?_⟩
        · exact iff_of_false (fun h => Bool.noConfusion h) (fun hc => Bool.noConfusion hc.2)
        · intro b hbb
          exact Option.noConfusion hbb
        · intro _
          refine ⟨rfl, rfl, rfl, ?_, ?_, rfl⟩
          · exact (GetVisitorID_IncrementMetric _ _ _).trans (GetVisitorID_SetVisitorID _ _ _)
          · exact GetMetric_IncrementMetric_self (SetVisitorID _ _ _) _
  · rw [if_neg hth]
    refine ⟨?_, ?_, ?_⟩
    · exact iff_of_false (fun h => Bool.noConfusion h) (fun hc => hth hc.1)
    · intro b _ hth2
      exact absurd hth2 hth
    · intro _
      refine ⟨rfl, rfl, rfl, ?_, ?_, rfl⟩
      · exact (GetVisitorID_IncrementMetric _ _ _).trans (GetVisitorID_SetVisitorID _ _ _)
      · exact GetMetric_IncrementMetric_self (SetVisitorID _ _ _) _

/-- Witness for C1's amended decision rule: the default configuration on the
empty state (a cache miss with no candidates) takes the create branch. -/
theorem C1_identify_decision_witness :
    ((Identify DefaultFingerprintConfig initState reqS1).1.isNew = false ↔
      (DefaultFingerprintConfig.similarityThreshold
          ≤ (identifyBest DefaultFingerprintConfig initState reqS1).1 ∧
        (identifyBest DefaultFingerprintConfig initState reqS1).2.isSome = true)) ∧
    (∀ best, (identifyBest DefaultFingerprintConfig initState reqS1).2 = some best →
      DefaultFingerprintConfig.similarityThreshold
        ≤ (identifyBest DefaultFingerprintConfig initState reqS1).1 →
      (Identify DefaultFingerprintConfig initState reqS1).1.visitorID = best.visitorID ∧
      (Identify DefaultFingerprintConfig initState reqS1).1.confidence
        = (identifyBest DefaultFingerprintConfig initState reqS1).1 ∧
      (Identify DefaultFingerprintConfig initState reqS1).1.isNew = false ∧
      GetVisitorID (Identify DefaultFingerprintConfig initState reqS1).2.cache
          (ComputeHardwareHash reqS1.signals)
        = best.visitorID ∧
      GetMetric (Identify DefaultFingerprintConfig initState reqS1).2.cache
          "healed_identifications"
        = GetMetric initState.cache "healed_identifications" + 1 ∧
      (Identify DefaultFingerprintConfig initState reqS1).2.store.visitors
        = initState.store.visitors) ∧
    (¬(DefaultFingerprintConfig.similarityThreshold
          ≤ (identifyBest DefaultFingerprintConfig initState reqS1).1 ∧
        (identifyBest DefaultFingerprintConfig initState reqS1).2.isSome = true) →
      (Identify DefaultFingerprintConfig initState reqS1).1.isNew = true ∧
      (Identify DefaultFingerprintConfig initState reqS1).1.confidence = 1 ∧
      (Identify DefaultFingerprintConfig initState reqS1).1.visitorID
        = uuidFromNat initState.uuidCounter ∧
      GetVisitorID (Identify DefaultFingerprintConfig initState reqS1).2.cache
          (ComputeHardwareHash reqS1.signals)
        = uuidFromNat initState.uuidCounter ∧
      GetMetric (Identify DefaultFingerprintConfig initState reqS1).2.cache "new_visitors"
        = GetMetric initState.cache "new_visitors" + 1 ∧
      (Identify DefaultFingerprintConfig initState reqS1).2.store.visitors
        = initState.store.visitors ++ [(CreateVisitor initState reqS1.ipAddress).1]) :=
  C1_identify_decision DefaultFingerprintConfig initState reqS1 rfl

/-! ## C4 — the S2 browser-update scenario

Evaluated facts about the two-call scenario.  The user agent is not among
the six fields of the hardware digest, so the second request carries the
same digest as the first and hits the cache entry the first call wrote. -/

theorem c4Call1_response : c4Call1.1 = ⟨uuidFromNat 0, 1, true, uuidFromNat 1⟩ := by
  with_unfolding_all rfl

theorem c4Call2_response : c4Call2.1 = ⟨uuidFromNat 0, 1, false, uuidFromNat 2⟩ := by
  with_unfolding_all rfl

theorem c4Call2_metrics :
    c4Call2.2.cache.metrics = [("metric:new_visitors", 1), ("metric:cache_hits", 1)] := by
  with_unfolding_all rfl

/-- Counterexample for C4: in the S2 scenario the second `Identify` call
does return `is_new = false`, but with confidence exactly 1.0 — not
strictly below 1.0 — and it is served by the hardware-digest cache
(`cache_hits` is bumped, `healed_identifications` is not), not by the
similarity scoring path the claim describes. -/
theorem C4_claim_counterexample :
    c4Call2.1.isNew = false ∧
    c4Call2.1.confidence = 1 ∧
    ¬(c4Call2.1.confidence < 1) ∧
    GetMetric c4Call2.2.cache "cache_hits" = 1 ∧
    GetMetric c4Call2.2.cache "healed_identifications" = 0 := by
  refine ⟨by rw [c4Call2_response], by rw [c4Call2_response], ?_, ?_, ?_⟩
  · rw [c4Call2_response]
    exact lt_irrefl 1
  · unfold GetMetric
    rw [c4Call2_metrics]
    decide
  · unfold GetMetric
    rw [c4Call2_metrics]
    decide

/-- C4 (amended): the user agent does not enter the hardware digest, so the
S2 variant carries the digest of the S1 bundle; the second `Identify` call
hits the cache entry written by the first and returns `is_new = false` with
confidence exactly 1.0 and the same visitor id, bumping `cache_hits` and
leaving `healed_identifications` untouched. -/
theorem C4_second_call_cache_hit :
    ComputeHardwareHash s2Bundle = ComputeHardwareHash s1Bundle ∧
    c4Call1.1.isNew = true ∧
    c4Call1.1.confidence = 1 ∧
    c4Call2.1.isNew = false ∧
    c4Call2.1.confidence = 1 ∧
    c4Call2.1.visitorID = c4Call1.1.visitorID ∧
    GetMetric c4Call2.2.cache "cache_hits" = 1 ∧
    GetMetric c4Call2.2.cache "healed_identifications" = 0 := by
  refine ⟨rfl, by rw [c4Call1_response], by rw [c4Call1_response], by rw [c4Call2_response],
    by rw [c4Call2_response], by rw [c4Call1_response, c4Call2_response], ?_, ?_⟩
  · unfold GetMetric
    rw [c4Call2_metrics]
    decide
  · unfold GetMetric
    rw [c4Call2_metrics]
    decide

end Signet
